import Mathlib

/-!
Shallow embedding of the finance-manager settlement frontend
(src/finance-manager/src/pages/SettlementPage.tsx and the variants under
src/unnamed), together with a spec-modelled ledger backend for the
operations whose server code is not part of the repository's files.

Amounts travelling through JavaScript are modelled by `JSNum` (NaN, the
two infinities, or a finite value represented as a rational); amounts
stored in ledger records arrive as JSON numbers and are therefore finite
rationals.
-/

namespace FinanceManager

/-- A JavaScript number as the form handlers see it: NaN, an infinity, or a
finite value (modelled as a rational; the source uses double-precision
floats, whose finite values the claims treat as exact arithmetic). -/
inductive JSNum
  | nan
  | posInf
  | negInf
  | fin (q : ℚ)
  deriving DecidableEq, Repr

/-- JavaScript Number.isNaN. -/
def JSNum.isNaN : JSNum → Bool
  | .nan => true
  | _ => false

/-- JavaScript comparison x <= b against a finite bound b; NaN compares
false against everything. -/
def JSNum.leFin : JSNum → ℚ → Bool
  | .nan, _ => false
  | .posInf, _ => false
  | .negInf, _ => true
  | .fin q, b => decide (q ≤ b)

/-- JavaScript comparison x > b against a finite bound b; NaN compares
false against everything. -/
def JSNum.gtFin : JSNum → ℚ → Bool
  | .nan, _ => false
  | .posInf, _ => true
  | .negInf, _ => false
  | .fin q, b => decide (b < q)

/-- JavaScript String.prototype.trim, modelled as removing the whitespace
characters at both ends of the string. -/
def jsTrim (s : String) : String :=
  ⟨((s.data.dropWhile Char.isWhitespace).reverse.dropWhile Char.isWhitespace).reverse⟩

/-- TransactionStatus from src/unnamed/part_000 (types.ts). -/
inductive TransactionStatus
  | pending
  | partially_settled
  | settled
  deriving DecidableEq, Repr

/-- Transaction category from src/unnamed/part_000 (types.ts). -/
inductive Category
  | work
  | personal
  deriving DecidableEq, Repr

/-- Salary-log source from src/unnamed/part_000 (types.ts). -/
inductive IncomeSource
  | salary
  | reimbursement
  | other
  deriving DecidableEq, Repr

/-- Transaction record from src/unnamed/part_000 (types.ts). -/
structure Transaction where
  id : Int
  title : String
  amount_out : ℚ
  amount_reimbursed : ℚ
  category : Category
  status : TransactionStatus
  created_at : String
  deriving DecidableEq, Repr

/-- SalaryLog record from src/unnamed/part_000 (types.ts); the optional
remark (string | null | undefined) is modelled as an Option. -/
structure SalaryLog where
  id : Int
  amount : ℚ
  amount_unused : ℚ
  month : String
  source : IncomeSource
  remark : Option String
  received_date : String
  deriving DecidableEq, Repr

/-- SettleRequest payload from src/unnamed/part_000 (types.ts); the amount
field carries the JavaScript number the handler computed. -/
structure SettleRequest where
  transaction_id : Int
  salary_log_id : Int
  amount : JSNum
  deriving DecidableEq, Repr

/-- TransactionCreate payload from src/unnamed/part_000 (types.ts). -/
structure TransactionCreate where
  title : String
  amount_out : JSNum
  category : Category
  deriving DecidableEq, Repr

/-- TransactionUpdate payload from src/unnamed/part_000 (types.ts). -/
structure TransactionUpdate where
  title : String
  amount_out : JSNum
  category : Category
  deriving DecidableEq, Repr

/-- SalaryLogCreate payload from src/unnamed/part_000 (types.ts). -/
structure SalaryLogCreate where
  amount : JSNum
  month : String
  source : IncomeSource
  remark : Option String
  deriving DecidableEq, Repr

/-- The component state the settle dialog's handleSubmit reads
(SettlementPage.tsx / src/unnamed/part_002). selectedSalaryId is the empty
string or the decimal string of a salary-log id, modelled as Option Int;
the amount text input is modelled by whether the string is empty
(amountEmpty, the source's falsiness test on the string) together with its
parsed value numericAmount = Number(amount); salaryLogs is the data of the
available-only salary-log query. -/
structure SettleFormState where
  selectedTransaction : Option Transaction
  selectedSalaryId : Option Int
  amountEmpty : Bool
  numericAmount : JSNum
  salaryLogs : List SalaryLog
  deriving DecidableEq, Repr

/-- availableSalaryLogs from SettlementPage.tsx / src/unnamed/part_002:
the loaded salary logs filtered to those with amount_unused > 0. -/
def availableSalaryLogs (logs : List SalaryLog) : List SalaryLog :=
  logs.filter (fun item => decide (0 < item.amount_unused))

/-- selectedSalary from SettlementPage.tsx / src/unnamed/part_002: the
first available salary log whose id renders to the selected id string
(undefined when the selection is empty or matches nothing). -/
def selectedSalary (s : SettleFormState) : Option SalaryLog :=
  match s.selectedSalaryId with
  | none => none
  | some n => (availableSalaryLogs s.salaryLogs).find? (fun item => item.id == n)

/-- remainingDebt from SettlementPage.tsx / src/unnamed/part_002: 0 when no
transaction is selected, else amount_out - amount_reimbursed. -/
def remainingDebt (s : SettleFormState) : ℚ :=
  match s.selectedTransaction with
  | none => 0
  | some t => t.amount_out - t.amount_reimbursed

/-- Outcome of a form handler: a silent return, a form error message, or a
mutation issued with its payload. -/
inductive SubmitResult
  | silent
  | failure (msg : String)
  | request (r : SettleRequest)
  deriving DecidableEq, Repr

/-- handleSubmit from SettlementPage.tsx (lines 119-145) and
src/unnamed/part_002 (lines 322-347): guard on selected transaction
(silent), selected salary id, amount validity, remaining debt, and - only
when the selected id resolves to an available log - the log's unused
balance; then issue the settle request. -/
def handleSubmit (s : SettleFormState) : SubmitResult :=
  match s.selectedTransaction with
  | none => .silent
  | some t =>
    match s.selectedSalaryId with
    | none => .failure "请选择一笔可用的回款"
    | some sid =>
      if s.amountEmpty || s.numericAmount.isNaN || s.numericAmount.leFin 0 then
        .failure "请输入有效金额"
      else if s.numericAmount.gtFin (remainingDebt s) then
        .failure "核销金额不能超过未结清金额"
      else
        match selectedSalary s with
        | some sal =>
          if s.numericAmount.gtFin sal.amount_unused then
            .failure "核销金额不能超过回款余额"
          else .request ⟨t.id, sid, s.numericAmount⟩
        | none => .request ⟨t.id, sid, s.numericAmount⟩

/-- Outcome of the create/update entry handlers: a form error message or a
request issued with its payload. -/
inductive EntryResult (α : Type)
  | failure (msg : String)
  | request (payload : α)
  deriving DecidableEq, Repr

/-- handleCreateTransaction from src/unnamed/part_002 (lines 349-364) and
SettlementPage.tsx (lines 592-607): reject a blank (trimmed) title, then a
NaN or non-positive amount, else issue the create request (spreading the
form, with amount_out := Number(form.amount_out), the identity on
numbers). -/
def handleCreateTransaction (form : TransactionCreate) : EntryResult TransactionCreate :=
  if jsTrim form.title = "" then .failure "请输入垫付标题"
  else if form.amount_out.isNaN || form.amount_out.leFin 0 then
    .failure "请输入有效的垫付金额"
  else .request form

/-- handleCreateSalaryLog from src/unnamed/part_002 (lines 366-382) and
SettlementPage.tsx (lines 609-625): reject a NaN or non-positive amount,
then an empty month, else issue the create request with the remark
normalized by remark?.trim() || null. -/
def handleCreateSalaryLog (form : SalaryLogCreate) : EntryResult SalaryLogCreate :=
  if form.amount.isNaN || form.amount.leFin 0 then
    .failure "请输入有效的回款金额"
  else if form.month = "" then .failure "请选择回款月份"
  else
    .request { form with
      remark := match form.remark with
        | none => none
        | some s => if jsTrim s = "" then none else some (jsTrim s) }

/-- The component state handleUpdateTransaction reads: the transaction
being edited and the edit form. -/
structure UpdateState where
  editingTransaction : Option Transaction
  editForm : TransactionUpdate
  deriving DecidableEq, Repr

/-- Outcome of handleUpdateTransaction: silent return, form error, or an
update request with the target id and payload. -/
inductive UpdateResult
  | silent
  | failure (msg : String)
  | request (id : Int) (payload : TransactionUpdate)
  deriving DecidableEq, Repr

/-- handleUpdateTransaction from src/unnamed/part_002 (lines 384-404) and
SettlementPage.tsx (lines 627-643): silent when nothing is being edited,
reject a blank title then a NaN or non-positive amount, else issue the
update with the trimmed title; no comparison against amount_reimbursed is
performed. -/
def handleUpdateTransaction (s : UpdateState) : UpdateResult :=
  match s.editingTransaction with
  | none => .silent
  | some t =>
    if jsTrim s.editForm.title = "" then .failure "请输入账单标题"
    else if s.editForm.amount_out.isNaN || s.editForm.amount_out.leFin 0 then
      .failure "请输入有效的账单金额"
    else
      .request t.id
        { title := jsTrim s.editForm.title
        , amount_out := s.editForm.amount_out
        , category := s.editForm.category }

/-- unsettledTransactions from SettlementPage.tsx, first variant (lines
93-96): keep the transactions whose outstanding balance
amount_out - amount_reimbursed is strictly positive. -/
def unsettledTransactionsByBalance (list : List Transaction) : List Transaction :=
  list.filter (fun item => decide (0 < item.amount_out - item.amount_reimbursed))

/-- unsettledTransactions from SettlementPage.tsx second variant (lines
506-509) and src/unnamed/part_002 (lines 259-262): keep the transactions
whose status differs from settled. -/
def unsettledTransactionsByStatus (list : List Transaction) : List Transaction :=
  list.filter (fun item => decide (item.status ≠ TransactionStatus.settled))

/-- The status invariant of the data model: 0 <= amountReimbursed <=
amountOut and status = settled exactly when amountReimbursed equals
amountOut. -/
def statusInvariant (t : Transaction) : Prop :=
  0 ≤ t.amount_reimbursed ∧ t.amount_reimbursed ≤ t.amount_out ∧
    (t.status = TransactionStatus.settled ↔ t.amount_reimbursed = t.amount_out)

instance (t : Transaction) : Decidable (statusInvariant t) := by
  unfold statusInvariant
  infer_instance

/-- Modelled from the spec: the backend DebtEntry record of §3 (the server
implementing the /settle, /transactions and /salary_logs endpoints is not
among the repository's files; only its frontend callers are). Amounts are
finite JSON numbers, modelled as rationals. -/
structure DebtEntry where
  id : Int
  title : String
  amountOut : ℚ
  amountReimbursed : ℚ
  status : TransactionStatus
  deriving DecidableEq, Repr

/-- Modelled from the spec: the backend IncomeEntry record of §3. -/
structure IncomeEntry where
  id : Int
  amount : ℚ
  amountUnused : ℚ
  month : String
  source : IncomeSource
  remark : Option String
  deriving DecidableEq, Repr

/-- Modelled from the spec: the ledger store owning all entries (§3). -/
structure Store where
  debts : List DebtEntry
  incomes : List IncomeEntry
  deriving DecidableEq, Repr

/-- Modelled from the spec: the error taxonomy of §4.1 and §7, one distinct
failure per settle precondition. -/
inductive SettleErr
  | invalidAmount
  | debtNotFound
  | incomeNotFound
  | exceedsOutstanding
  | exceedsAvailable
  deriving DecidableEq, Repr

/-- Modelled from the spec: recompute a debt entry's status from its two
amounts (§3: settled iff amountReimbursed = amountOut, pending iff
amountReimbursed = 0, partially_settled otherwise). -/
def recomputeStatus (amountReimbursed amountOut : ℚ) : TransactionStatus :=
  if amountReimbursed = amountOut then .settled
  else if amountReimbursed = 0 then .pending
  else .partially_settled

/-- Modelled from the spec: apply a settlement of a to the (unique) debt
entry with the given id, adding a to amountReimbursed and recomputing the
status (§4.1 effect). -/
def applyToDebt : List DebtEntry → Int → ℚ → List DebtEntry
  | [], _, _ => []
  | d :: rest, debtId, a =>
    if d.id == debtId then
      { d with amountReimbursed := d.amountReimbursed + a
             , status := recomputeStatus (d.amountReimbursed + a) d.amountOut } :: rest
    else d :: applyToDebt rest debtId a

/-- Modelled from the spec: apply a settlement of a to the (unique) income
entry with the given id, subtracting a from amountUnused (§4.1 effect). -/
def applyToIncome : List IncomeEntry → Int → ℚ → List IncomeEntry
  | [], _, _ => []
  | i :: rest, incomeId, a =>
    if i.id == incomeId then
      { i with amountUnused := i.amountUnused - a } :: rest
    else i :: applyToIncome rest incomeId a

/-- Modelled from the spec: the settle(debtEntryId, incomeEntryId, amount)
operation of §4.1 - the five preconditions in their stated order, each with
its distinct failure, then the atomic two-sided balance update. -/
def settle (s : Store) (debtId incomeId : Int) (a : ℚ) : Except SettleErr Store :=
  if a ≤ 0 then .error .invalidAmount
  else
    match s.debts.find? (fun d => d.id == debtId) with
    | none => .error .debtNotFound
    | some d =>
      match s.incomes.find? (fun i => i.id == incomeId) with
      | none => .error .incomeNotFound
      | some i =>
        if d.amountOut - d.amountReimbursed < a then .error .exceedsOutstanding
        else if i.amountUnused < a then .error .exceedsAvailable
        else .ok { debts := applyToDebt s.debts debtId a
                 , incomes := applyToIncome s.incomes incomeId a }

/-- Modelled from the spec: totalLent of the Summary Aggregator (§4.3). -/
def totalLent (s : Store) : ℚ := (s.debts.map (fun d => d.amountOut)).sum

/-- Modelled from the spec: totalReimbursed of the Summary Aggregator
(§4.3). -/
def totalReimbursed (s : Store) : ℚ := (s.debts.map (fun d => d.amountReimbursed)).sum

/-- Modelled from the spec: cashWaitingAllocation of the Summary
Aggregator (§4.3). -/
def cashWaitingAllocation (s : Store) : ℚ := (s.incomes.map (fun i => i.amountUnused)).sum

/-- The quantity the spec's conservation property (§8) is stated about:
(sum of amountOut - sum of amountReimbursed) plus (sum of amountUnused). -/
def conservedTotal (s : Store) : ℚ :=
  (totalLent s - totalReimbursed s) + cashWaitingAllocation s

/-- Modelled from the spec: the backend create-income operation of §4.2,
initializing amountUnused = amount (the id and receivedDate are assigned
by the store and clock collaborators). -/
def createIncomeEntry (id : Int) (amount : ℚ) (month : String)
    (source : IncomeSource) (remark : Option String) : IncomeEntry :=
  { id := id, amount := amount, amountUnused := amount
  , month := month, source := source, remark := remark }

/-- A JavaScript number compares strictly above 0 exactly when it is neither
NaN nor <= 0: the positive finite values together with positive infinity. -/
theorem JSNum.gtFin_zero_iff (x : JSNum) :
    x.gtFin 0 = true ↔ (x.isNaN = false ∧ x.leFin 0 = false) := by
  cases x <;> simp [JSNum.gtFin, JSNum.leFin, JSNum.isNaN, not_le]

/-- C5: on every transaction list satisfying the status invariant, filtering
by positive outstanding balance and filtering by status different from
settled select the same list. -/
theorem unsettled_filters_agree (list : List Transaction)
    (h : ∀ t ∈ list, statusInvariant t) :
    unsettledTransactionsByBalance list = unsettledTransactionsByStatus list := by
  unfold unsettledTransactionsByBalance unsettledTransactionsByStatus
  apply List.filter_congr
  intro t ht
  obtain ⟨_, hle, hiff⟩ := h t ht
  have hlt : t.amount_reimbursed < t.amount_out ↔ t.amount_reimbursed ≠ t.amount_out :=
    ⟨ne_of_lt, fun hne => lt_of_le_of_ne hle hne⟩
  simp only [decide_eq_decide, sub_pos, hlt, Ne, hiff]

/-- Concrete instance of the filter agreement: a pending, a partially
settled and a settled entry, each satisfying the status invariant. -/
def filterSample : List Transaction :=
  [ { id := 1, title := "打车", amount_out := 300, amount_reimbursed := 0
    , category := .work, status := .pending, created_at := "2024-05-01" }
  , { id := 2, title := "餐费", amount_out := 200, amount_reimbursed := 50
    , category := .work, status := .partially_settled, created_at := "2024-05-02" }
  , { id := 3, title := "住宿", amount_out := 100, amount_reimbursed := 100
    , category := .personal, status := .settled, created_at := "2024-05-03" } ]

/-- Witness for the filter agreement at a concrete list. -/
theorem unsettled_filters_agree_witness :
    unsettledTransactionsByBalance filterSample = unsettledTransactionsByStatus filterSample :=
  unsettled_filters_agree filterSample (by decide)

/-- C7: handleCreateTransaction issues the create request exactly when the
trimmed title is non-empty and the amount is a number strictly greater
than 0; any other input yields a validation error, and an issued request
carries the form unchanged. -/
theorem handleCreateTransaction_spec (form : TransactionCreate) :
    ((∃ p, handleCreateTransaction form = EntryResult.request p) ↔
      (jsTrim form.title ≠ "" ∧ form.amount_out.gtFin 0 = true)) ∧
    ((jsTrim form.title = "" ∨ form.amount_out.gtFin 0 = false) →
      ∃ msg, handleCreateTransaction form = EntryResult.failure msg) ∧
    (∀ p, handleCreateTransaction form = EntryResult.request p → p = form) := by
  unfold handleCreateTransaction
  by_cases ht : jsTrim form.title = ""
  · simp [ht]
  · by_cases hg : form.amount_out.gtFin 0 = true
    · obtain ⟨h1, h2⟩ := (JSNum.gtFin_zero_iff form.amount_out).mp hg
      simp [ht, h1, h2, hg]
    · rw [Bool.not_eq_true] at hg
      have hor : form.amount_out.isNaN = true ∨ form.amount_out.leFin 0 = true := by
        by_contra hc
        push_neg at hc
        simp only [ne_eq, Bool.not_eq_true] at hc
        have := (JSNum.gtFin_zero_iff form.amount_out).mpr hc
        rw [hg] at this
        exact Bool.false_ne_true this
      rcases hor with h1 | h1 <;> simp [ht, h1, hg]

/-- C10: whenever handleCreateSalaryLog issues a create request, the
remark sent is the trimmed remark, with an absent, empty or
whitespace-only remark sent as null. -/
theorem handleCreateSalaryLog_remark_normalized (form : SalaryLogCreate)
    (p : SalaryLogCreate) (h : handleCreateSalaryLog form = EntryResult.request p) :
    (form.remark = none → p.remark = none) ∧
    (∀ s, form.remark = some s → jsTrim s = "" → p.remark = none) ∧
    (∀ s, form.remark = some s → jsTrim s ≠ "" → p.remark = some (jsTrim s)) := by
  unfold handleCreateSalaryLog at h
  split at h
  · exact absurd h (by simp)
  · split at h
    · exact absurd h (by simp)
    · rw [EntryResult.request.injEq] at h
      subst h
      refine ⟨fun hr => by simp [hr], fun s hs htr => by simp [hs, htr], ?_⟩
      intro s hs htr
      simp [hs, htr]

/-- Concrete salary-log creation form whose remark carries surrounding
whitespace. -/
def remarkSampleForm : SalaryLogCreate :=
  { amount := .fin 500, month := "2024-05", source := .salary, remark := some " 备注 " }

/-- Concrete payload handleCreateSalaryLog issues for remarkSampleForm. -/
def remarkSamplePayload : SalaryLogCreate :=
  { amount := .fin 500, month := "2024-05", source := .salary, remark := some "备注" }

/-- Witness for the remark normalization at a concrete form: the issued
remark has its surrounding whitespace removed. -/
theorem handleCreateSalaryLog_remark_witness :
    (remarkSampleForm.remark = none → remarkSamplePayload.remark = none) ∧
    (∀ s, remarkSampleForm.remark = some s → jsTrim s = "" → remarkSamplePayload.remark = none) ∧
    (∀ s, remarkSampleForm.remark = some s → jsTrim s ≠ "" →
      remarkSamplePayload.remark = some (jsTrim s)) :=
  handleCreateSalaryLog_remark_normalized remarkSampleForm remarkSamplePayload (by decide)

/-- C2 (amended): complete characterization of handleSubmit's guard order -
transaction selection (silent), salary selection, amount validity,
remaining debt, then the unused balance of the resolved salary log; each
outcome occurs exactly when its check is the earliest failing one. -/
theorem handleSubmit_check_order (s : SettleFormState) :
    (handleSubmit s = SubmitResult.silent ↔ s.selectedTransaction = none) ∧
    (handleSubmit s = SubmitResult.failure "请选择一笔可用的回款" ↔
      s.selectedTransaction ≠ none ∧ s.selectedSalaryId = none) ∧
    (handleSubmit s = SubmitResult.failure "请输入有效金额" ↔
      s.selectedTransaction ≠ none ∧ s.selectedSalaryId ≠ none ∧
        (s.amountEmpty || s.numericAmount.isNaN || s.numericAmount.leFin 0) = true) ∧
    (handleSubmit s = SubmitResult.failure "核销金额不能超过未结清金额" ↔
      s.selectedTransaction ≠ none ∧ s.selectedSalaryId ≠ none ∧
        (s.amountEmpty || s.numericAmount.isNaN || s.numericAmount.leFin 0) = false ∧
        s.numericAmount.gtFin (remainingDebt s) = true) ∧
    (handleSubmit s = SubmitResult.failure "核销金额不能超过回款余额" ↔
      s.selectedTransaction ≠ none ∧ s.selectedSalaryId ≠ none ∧
        (s.amountEmpty || s.numericAmount.isNaN || s.numericAmount.leFin 0) = false ∧
        s.numericAmount.gtFin (remainingDebt s) = false ∧
        ∃ sal, selectedSalary s = some sal ∧
          s.numericAmount.gtFin sal.amount_unused = true) ∧
    ((∃ r, handleSubmit s = SubmitResult.request r) ↔
      s.selectedTransaction ≠ none ∧ s.selectedSalaryId ≠ none ∧
        (s.amountEmpty || s.numericAmount.isNaN || s.numericAmount.leFin 0) = false ∧
        s.numericAmount.gtFin (remainingDebt s) = false ∧
        ∀ sal, selectedSalary s = some sal →
          s.numericAmount.gtFin sal.amount_unused = false) := by
  obtain ⟨ot, oid, ae, na, logs⟩ := s
  cases ot with
  | none => simp [handleSubmit]
  | some t =>
    cases oid with
    | none => simp [handleSubmit]
    | some n =>
      by_cases hbad : (ae || na.isNaN || na.leFin 0) = true
      · simp [handleSubmit, hbad]
      · rw [Bool.not_eq_true] at hbad
        by_cases hdebt :
            na.gtFin (remainingDebt ⟨some t, some n, ae, na, logs⟩) = true
        · simp [handleSubmit, hbad, hdebt]
        · rw [Bool.not_eq_true] at hdebt
          cases hsel : selectedSalary ⟨some t, some n, ae, na, logs⟩ with
          | none => simp [handleSubmit, hbad, hdebt, hsel]
          | some sal =>
            by_cases hun : na.gtFin sal.amount_unused = true
            · simp [handleSubmit, hbad, hdebt, hsel, hun]
            · rw [Bool.not_eq_true] at hun
              simp [handleSubmit, hbad, hdebt, hsel, hun]

/-- Concrete transaction for the check-order counterexample. -/
def orderCexTransaction : Transaction :=
  { id := 1, title := "打车", amount_out := 300, amount_reimbursed := 0
  , category := .work, status := .pending, created_at := "2024-05-01" }

/-- Concrete dialog state failing several of the claimed checks at once: the
amount 0 is invalid (the claimed first check) and no salary log is selected
(the claimed third check). -/
def orderCexForm : SettleFormState :=
  { selectedTransaction := some orderCexTransaction
  , selectedSalaryId := none
  , amountEmpty := false
  , numericAmount := .fin 0
  , salaryLogs := [] }

/-- Counterexample to the claimed check order: on an input whose amount is
invalid and whose salary selection is empty, the code reports the
salary-selection error, not the invalid-amount error the claimed order
(amount validity first) would produce. -/
theorem handleSubmit_order_cex :
    handleSubmit orderCexForm = SubmitResult.failure "请选择一笔可用的回款" ∧
    SubmitResult.failure "请选择一笔可用的回款" ≠
      SubmitResult.failure "请输入有效金额" := by
  exact ⟨rfl, by decide⟩

/-- Concrete transaction for the invalid-amount counterexample. -/
def infCexTransaction : Transaction :=
  { id := 1, title := "打车", amount_out := 300, amount_reimbursed := 0
  , category := .work, status := .pending, created_at := "2024-05-01" }

/-- Concrete available salary log for the invalid-amount counterexample. -/
def infCexLog : SalaryLog :=
  { id := 2, amount := 500, amount_unused := 500, month := "2024-05"
  , source := .salary, remark := none, received_date := "2024-05-10" }

/-- Concrete dialog state whose amount parses to positive infinity, with a
transaction and a matching salary log selected. -/
def infCexForm : SettleFormState :=
  { selectedTransaction := some infCexTransaction
  , selectedSalaryId := some 2
  , amountEmpty := false
  , numericAmount := .posInf
  , salaryLogs := [infCexLog] }

/-- Counterexample to the claimed invalid-amount handling: an infinite
amount is not a finite value strictly greater than 0, yet the code does not
produce the invalid-amount error - the validity check passes it and the
remaining-debt check rejects it instead. -/
theorem invalid_amount_cex :
    handleSubmit infCexForm = SubmitResult.failure "核销金额不能超过未结清金额" ∧
    SubmitResult.failure "核销金额不能超过未结清金额" ≠
      SubmitResult.failure "请输入有效金额" := by
  exact ⟨rfl, by decide⟩

/-- C3 (amended): with a transaction and a salary id selected, an empty,
NaN, non-positive or negatively infinite amount fails with the
invalid-amount error; a positively infinite amount instead fails the
remaining-debt check; in every case where the amount is not a finite value
strictly greater than 0, no settle request is issued. -/
theorem invalid_amount_check (s : SettleFormState) (t : Transaction) (n : Int)
    (ht : s.selectedTransaction = some t) (hid : s.selectedSalaryId = some n)
    (hrel : s.amountEmpty = true → s.numericAmount = JSNum.fin 0) :
    ((s.amountEmpty = true ∨ s.numericAmount.isNaN = true ∨
        s.numericAmount.leFin 0 = true) →
      handleSubmit s = SubmitResult.failure "请输入有效金额") ∧
    (s.numericAmount = JSNum.posInf →
      handleSubmit s = SubmitResult.failure "核销金额不能超过未结清金额") ∧
    (∀ r, (s.numericAmount.gtFin 0 = false ∨ s.numericAmount = JSNum.posInf) →
      handleSubmit s ≠ SubmitResult.request r) := by
  have hae : s.numericAmount = JSNum.posInf → s.amountEmpty = false := by
    intro hp
    rcases he : s.amountEmpty with _ | _
    · rfl
    · rw [hrel he] at hp
      exact absurd hp (by simp)
  refine ⟨fun hb => ?_, fun hp => ?_, fun r hc => ?_⟩
  · have : (s.amountEmpty || s.numericAmount.isNaN || s.numericAmount.leFin 0) = true := by
      rcases hb with hb | hb | hb <;> simp [hb]
    rw [handleSubmit, ht, hid]
    simp [this]
  · rw [handleSubmit, ht, hid]
    simp [hp, hae hp, JSNum.isNaN, JSNum.leFin, JSNum.gtFin]
  · rcases hc with hc | hc
    · rcases hz : (s.amountEmpty || s.numericAmount.isNaN || s.numericAmount.leFin 0) with _ | _
      · rw [Bool.or_eq_false_iff, Bool.or_eq_false_iff] at hz
        have := (JSNum.gtFin_zero_iff s.numericAmount).mpr ⟨hz.1.2, hz.2⟩
        rw [hc] at this
        exact absurd this Bool.false_ne_true
      · rw [handleSubmit, ht, hid]
        simp [hz]
    · rw [handleSubmit, ht, hid]
      simp [hc, hae hc, JSNum.isNaN, JSNum.leFin, JSNum.gtFin]

/-- Concrete dialog state with a NaN amount (a non-numeric input string). -/
def nanWitnessForm : SettleFormState :=
  { selectedTransaction := some
      { id := 1, title := "打车", amount_out := 300, amount_reimbursed := 0
      , category := .work, status := .pending, created_at := "2024-05-01" }
  , selectedSalaryId := some 2
  , amountEmpty := false
  , numericAmount := .nan
  , salaryLogs := [] }

/-- Witness for the amended invalid-amount claim at a concrete NaN input. -/
theorem invalid_amount_check_witness :
    ((nanWitnessForm.amountEmpty = true ∨ nanWitnessForm.numericAmount.isNaN = true ∨
        nanWitnessForm.numericAmount.leFin 0 = true) →
      handleSubmit nanWitnessForm = SubmitResult.failure "请输入有效金额") ∧
    (nanWitnessForm.numericAmount = JSNum.posInf →
      handleSubmit nanWitnessForm = SubmitResult.failure "核销金额不能超过未结清金额") ∧
    (∀ r, (nanWitnessForm.numericAmount.gtFin 0 = false ∨
        nanWitnessForm.numericAmount = JSNum.posInf) →
      handleSubmit nanWitnessForm ≠ SubmitResult.request r) :=
  invalid_amount_check nanWitnessForm
    { id := 1, title := "打车", amount_out := 300, amount_reimbursed := 0
    , category := .work, status := .pending, created_at := "2024-05-01" } 2 rfl rfl
    (by decide)

/-- C4: with a settled transaction selected (amount_reimbursed equal to
amount_out, remaining balance 0), handleSubmit never issues a settle
request, and any attempt with a positive amount and a salary selected
fails the remaining-debt check with the exceeds-outstanding-balance
error. -/
theorem settled_is_terminal (s : SettleFormState) (t : Transaction)
    (ht : s.selectedTransaction = some t)
    (hsettled : t.amount_reimbursed = t.amount_out)
    (hrel : s.amountEmpty = true → s.numericAmount = JSNum.fin 0) :
    (∀ r, handleSubmit s ≠ SubmitResult.request r) ∧
    (∀ n, s.selectedSalaryId = some n → s.numericAmount.gtFin 0 = true →
      handleSubmit s = SubmitResult.failure "核销金额不能超过未结清金额") := by
  have hrem : remainingDebt s = 0 := by
    rw [remainingDebt, ht]
    show t.amount_out - t.amount_reimbursed = 0
    rw [hsettled, sub_self]
  constructor
  · intro r
    rw [handleSubmit, ht]
    cases hid : s.selectedSalaryId with
    | none => simp
    | some n =>
      rcases hz : (s.amountEmpty || s.numericAmount.isNaN || s.numericAmount.leFin 0)
          with _ | _
      · rw [Bool.or_eq_false_iff, Bool.or_eq_false_iff] at hz
        have hg := (JSNum.gtFin_zero_iff s.numericAmount).mpr ⟨hz.1.2, hz.2⟩
        rw [← hrem] at hg
        simp [hz.1.1, hz.1.2, hz.2, hg]
      · simp [hz]
  · intro n hid hpos
    obtain ⟨hnan, hle⟩ := (JSNum.gtFin_zero_iff s.numericAmount).mp hpos
    have hae : s.amountEmpty = false := by
      rcases he : s.amountEmpty with _ | _
      · rfl
      · rw [hrel he] at hpos
        simp [JSNum.gtFin] at hpos
    rw [handleSubmit, ht, hid]
    rw [← hrem] at hpos
    simp [hae, hnan, hle, hpos]

/-- Concrete settled transaction: fully reimbursed. -/
def settledWitnessTransaction : Transaction :=
  { id := 4, title := "房租", amount_out := 300, amount_reimbursed := 300
  , category := .work, status := .settled, created_at := "2024-04-01" }

/-- Concrete dialog state attempting a positive settlement against the
settled transaction. -/
def settledWitnessForm : SettleFormState :=
  { selectedTransaction := some settledWitnessTransaction
  , selectedSalaryId := some 2
  , amountEmpty := false
  , numericAmount := .fin 50
  , salaryLogs :=
      [ { id := 2, amount := 500, amount_unused := 500, month := "2024-05"
        , source := .salary, remark := none, received_date := "2024-05-10" } ] }

/-- Witness for the terminal-settled claim at a concrete settled entry and
a positive amount. -/
theorem settled_is_terminal_witness :
    (∀ r, handleSubmit settledWitnessForm ≠ SubmitResult.request r) ∧
    (∀ n, settledWitnessForm.selectedSalaryId = some n →
      settledWitnessForm.numericAmount.gtFin 0 = true →
      handleSubmit settledWitnessForm =
        SubmitResult.failure "核销金额不能超过未结清金额") :=
  settled_is_terminal settledWitnessForm settledWitnessTransaction rfl (by decide)
    (by decide)

/-- C6: handleUpdateTransaction accepts every edit whose trimmed title is
non-empty and whose amount is a number strictly greater than 0, issuing
the update request with no comparison of the new amount_out against the
entry's amount_reimbursed. -/
theorem update_is_permissive (s : UpdateState) (t : Transaction)
    (ht : s.editingTransaction = some t)
    (htitle : jsTrim s.editForm.title ≠ "")
    (hpos : s.editForm.amount_out.gtFin 0 = true) :
    handleUpdateTransaction s =
      UpdateResult.request t.id
        { title := jsTrim s.editForm.title
        , amount_out := s.editForm.amount_out
        , category := s.editForm.category } := by
  obtain ⟨hnan, hle⟩ := (JSNum.gtFin_zero_iff s.editForm.amount_out).mp hpos
  rw [handleUpdateTransaction, ht]
  simp [htitle, hnan, hle]

/-- Concrete partially settled transaction being edited. -/
def editWitnessTransaction : Transaction :=
  { id := 5, title := "机票", amount_out := 400, amount_reimbursed := 200
  , category := .work, status := .partially_settled, created_at := "2024-03-01" }

/-- Concrete edit state rewriting amount_out to 50, strictly below the
entry's amount_reimbursed of 200. -/
def editWitnessState : UpdateState :=
  { editingTransaction := some editWitnessTransaction
  , editForm := { title := "机票", amount_out := .fin 50, category := .work } }

/-- Witness for the permissive update at a concrete edit that sets
amount_out strictly below amount_reimbursed: the update is still issued. -/
theorem update_is_permissive_witness :
    (50 : ℚ) < editWitnessTransaction.amount_reimbursed ∧
    handleUpdateTransaction editWitnessState =
      UpdateResult.request editWitnessTransaction.id
        { title := jsTrim editWitnessState.editForm.title
        , amount_out := editWitnessState.editForm.amount_out
        , category := editWitnessState.editForm.category } :=
  ⟨by decide, update_is_permissive editWitnessState editWitnessTransaction rfl
    (by decide) (by decide)⟩

/-- C9: when the selected salary id does not resolve to any log of the
available list, handleSubmit skips the unused-balance check entirely and
issues the settle request with that id and any amount passing the earlier
checks. -/
theorem handleSubmit_skips_unused_check (s : SettleFormState) (t : Transaction)
    (n : Int)
    (ht : s.selectedTransaction = some t)
    (hid : s.selectedSalaryId = some n)
    (hmiss : ∀ log ∈ availableSalaryLogs s.salaryLogs, log.id ≠ n)
    (hae : s.amountEmpty = false)
    (hnan : s.numericAmount.isNaN = false)
    (hle : s.numericAmount.leFin 0 = false)
    (hdebt : s.numericAmount.gtFin (remainingDebt s) = false) :
    handleSubmit s = SubmitResult.request ⟨t.id, n, s.numericAmount⟩ := by
  have hsel : selectedSalary s = none := by
    rw [selectedSalary, hid]
    rw [List.find?_eq_none]
    intro log hlog
    simp [hmiss log hlog]
  rw [handleSubmit, ht, hid]
  simp [hae, hnan, hle, hdebt, hsel]

/-- Concrete salary log that is exhausted (amount_unused 0), hence absent
from the available list even though its id is the selected one. -/
def staleLog : SalaryLog :=
  { id := 9, amount := 100, amount_unused := 0, month := "2024-04"
  , source := .salary, remark := none, received_date := "2024-04-10" }

/-- Concrete dialog state whose selected salary id 9 matches no available
log (log 9 is exhausted and filtered out), with amount 100. -/
def staleSelectionForm : SettleFormState :=
  { selectedTransaction := some
      { id := 6, title := "差旅", amount_out := 300, amount_reimbursed := 0
      , category := .work, status := .pending, created_at := "2024-05-01" }
  , selectedSalaryId := some 9
  , amountEmpty := false
  , numericAmount := .fin 100
  , salaryLogs := [staleLog] }

/-- Witness for the skipped unused-balance check: the request is issued for
amount 100 against salary id 9 although log 9 has amount_unused 0. -/
theorem handleSubmit_skips_unused_check_witness :
    handleSubmit staleSelectionForm =
      SubmitResult.request ⟨6, 9, JSNum.fin 100⟩ :=
  handleSubmit_skips_unused_check staleSelectionForm
    { id := 6, title := "差旅", amount_out := 300, amount_reimbursed := 0
    , category := .work, status := .pending, created_at := "2024-05-01" }
    9 rfl rfl (by decide) rfl rfl (by decide)
    (by norm_num [staleSelectionForm, remainingDebt, JSNum.gtFin])

/-- applyToDebt changes no amountOut. -/
theorem applyToDebt_map_amountOut (l : List DebtEntry) (debtId : Int) (a : ℚ) :
    (applyToDebt l debtId a).map (fun d => d.amountOut) =
      l.map (fun d => d.amountOut) := by
  induction l with
  | nil => rfl
  | cons d rest ih =>
    by_cases hc : (d.id == debtId) = true
    · simp [applyToDebt, hc]
    · rw [Bool.not_eq_true] at hc
      simp [applyToDebt, hc, ih]

/-- When the target id occurs in the list, applyToDebt raises the sum of
the amountReimbursed fields by exactly a. -/
theorem applyToDebt_sum_reimbursed (l : List DebtEntry) (debtId : Int) (a : ℚ)
    (h : (l.find? (fun d => d.id == debtId)).isSome = true) :
    ((applyToDebt l debtId a).map (fun d => d.amountReimbursed)).sum =
      (l.map (fun d => d.amountReimbursed)).sum + a := by
  induction l with
  | nil => simp [List.find?] at h
  | cons d rest ih =>
    by_cases hc : (d.id == debtId) = true
    · simp [applyToDebt, hc]
      ring
    · rw [Bool.not_eq_true] at hc
      rw [List.find?_cons_of_neg _ (by simp [hc])] at h
      simp [applyToDebt, hc, ih h]
      ring

/-- When the target id occurs in the list, applyToDebt sends the first
entry carrying it to its updated copy. -/
theorem applyToDebt_find? (l : List DebtEntry) (debtId : Int) (a : ℚ)
    (d : DebtEntry) (h : l.find? (fun x => x.id == debtId) = some d) :
    (applyToDebt l debtId a).find? (fun x => x.id == debtId) =
      some { d with amountReimbursed := d.amountReimbursed + a
                  , status := recomputeStatus (d.amountReimbursed + a) d.amountOut } := by
  induction l with
  | nil => simp [List.find?] at h
  | cons d0 rest ih =>
    by_cases hc : (d0.id == debtId) = true
    · simp only [List.find?_cons, hc, Option.some.injEq] at h
      subst h
      have he : applyToDebt (d0 :: rest) debtId a =
          { d0 with amountReimbursed := d0.amountReimbursed + a
                  , status := recomputeStatus (d0.amountReimbursed + a) d0.amountOut }
            :: rest := by
        simp [applyToDebt, hc]
      rw [he]
      simp only [List.find?_cons]
      simp [hc]
    · rw [Bool.not_eq_true] at hc
      simp only [List.find?_cons, hc] at h
      have he : applyToDebt (d0 :: rest) debtId a = d0 :: applyToDebt rest debtId a := by
        simp [applyToDebt, hc]
      rw [he]
      simp only [List.find?_cons, hc]
      exact ih h

/-- applyToIncome changes no amount. -/
theorem applyToIncome_map_amount (l : List IncomeEntry) (incomeId : Int) (a : ℚ) :
    (applyToIncome l incomeId a).map (fun i => i.amount) =
      l.map (fun i => i.amount) := by
  induction l with
  | nil => rfl
  | cons i rest ih =>
    by_cases hc : (i.id == incomeId) = true
    · simp [applyToIncome, hc]
    · rw [Bool.not_eq_true] at hc
      simp [applyToIncome, hc, ih]

/-- When the target id occurs in the list, applyToIncome lowers the sum of
the amountUnused fields by exactly a. -/
theorem applyToIncome_sum_unused (l : List IncomeEntry) (incomeId : Int) (a : ℚ)
    (h : (l.find? (fun i => i.id == incomeId)).isSome = true) :
    ((applyToIncome l incomeId a).map (fun i => i.amountUnused)).sum =
      (l.map (fun i => i.amountUnused)).sum - a := by
  induction l with
  | nil => simp [List.find?] at h
  | cons i rest ih =>
    by_cases hc : (i.id == incomeId) = true
    · simp [applyToIncome, hc]
      ring
    · rw [Bool.not_eq_true] at hc
      rw [List.find?_cons_of_neg _ (by simp [hc])] at h
      simp [applyToIncome, hc, ih h]
      ring

/-- When the target id occurs in the list, applyToIncome sends the first
entry carrying it to its updated copy. -/
theorem applyToIncome_find? (l : List IncomeEntry) (incomeId : Int) (a : ℚ)
    (i : IncomeEntry) (h : l.find? (fun x => x.id == incomeId) = some i) :
    (applyToIncome l incomeId a).find? (fun x => x.id == incomeId) =
      some { i with amountUnused := i.amountUnused - a } := by
  induction l with
  | nil => simp [List.find?] at h
  | cons i0 rest ih =>
    by_cases hc : (i0.id == incomeId) = true
    · simp only [List.find?_cons, hc, Option.some.injEq] at h
      subst h
      have he : applyToIncome (i0 :: rest) incomeId a =
          { i0 with amountUnused := i0.amountUnused - a } :: rest := by
        simp [applyToIncome, hc]
      rw [he]
      simp only [List.find?_cons]
      simp [hc]
    · rw [Bool.not_eq_true] at hc
      simp only [List.find?_cons, hc] at h
      have he : applyToIncome (i0 :: rest) incomeId a = i0 :: applyToIncome rest incomeId a := by
        simp [applyToIncome, hc]
      rw [he]
      simp only [List.find?_cons, hc]
      exact ih h

/-- Inversion of a successful settle: both referenced entries were found
and the returned store is the two-sided update of the input store. -/
theorem settle_ok_inv (s : Store) (debtId incomeId : Int) (a : ℚ) (s' : Store)
    (h : settle s debtId incomeId a = Except.ok s') :
    s'.debts = applyToDebt s.debts debtId a ∧
    s'.incomes = applyToIncome s.incomes incomeId a ∧
    (s.debts.find? (fun d => d.id == debtId)).isSome = true ∧
    (s.incomes.find? (fun i => i.id == incomeId)).isSome = true := by
  rw [settle] at h
  split at h
  · exact absurd h (by simp)
  · split at h
    · exact absurd h (by simp)
    · rename_i d hd
      split at h
      · exact absurd h (by simp)
      · rename_i i hi
        split at h
        · exact absurd h (by simp)
        · split at h
          · exact absurd h (by simp)
          · rw [Except.ok.injEq] at h
            subst h
            exact ⟨rfl, rfl, by rw [hd]; rfl, by rw [hi]; rfl⟩

/-- C1 (amended): a successful settle(d, i, a) adds a to the target debt
entry's amountReimbursed and subtracts a from the target income entry's
amountUnused, both in the single returned store; the total of
sum(amountReimbursed) plus sum(amountUnused) is unchanged, while the
spec's stated quantity (sum(amountOut) - sum(amountReimbursed)) plus
sum(amountUnused) decreases by exactly 2a. -/
theorem settle_moves_balance (s : Store) (debtId incomeId : Int) (a : ℚ)
    (s' : Store) (h : settle s debtId incomeId a = Except.ok s') :
    (∀ d, s.debts.find? (fun x => x.id == debtId) = some d →
      ∃ d', s'.debts.find? (fun x => x.id == debtId) = some d' ∧
        d'.amountReimbursed = d.amountReimbursed + a) ∧
    (∀ i, s.incomes.find? (fun x => x.id == incomeId) = some i →
      ∃ i', s'.incomes.find? (fun x => x.id == incomeId) = some i' ∧
        i'.amountUnused = i.amountUnused - a) ∧
    totalReimbursed s' + cashWaitingAllocation s' =
      totalReimbursed s + cashWaitingAllocation s ∧
    conservedTotal s' = conservedTotal s - 2 * a := by
  obtain ⟨hd, hi, hds, his⟩ := settle_ok_inv s debtId incomeId a s' h
  refine ⟨?_, ?_, ?_, ?_⟩
  · intro d hfind
    exact ⟨_, by rw [hd]; exact applyToDebt_find? _ _ _ _ hfind, rfl⟩
  · intro i hfind
    exact ⟨_, by rw [hi]; exact applyToIncome_find? _ _ _ _ hfind, rfl⟩
  · rw [totalReimbursed, cashWaitingAllocation, hd, hi,
      applyToDebt_sum_reimbursed _ _ _ hds, applyToIncome_sum_unused _ _ _ his,
      totalReimbursed, cashWaitingAllocation]
    ring
  · rw [conservedTotal, conservedTotal, totalLent, totalLent,
      totalReimbursed, totalReimbursed, cashWaitingAllocation,
      cashWaitingAllocation, hd, hi, applyToDebt_map_amountOut,
      applyToDebt_sum_reimbursed _ _ _ hds, applyToIncome_sum_unused _ _ _ his]
    ring

/-- Concrete store before settlement: one debt of 300 (nothing reimbursed),
one income of 500 (all unused) - the spec's end-to-end scenario 1. -/
def scenarioStore : Store :=
  { debts := [ { id := 1, title := "车费", amountOut := 300
               , amountReimbursed := 0, status := .pending } ]
  , incomes := [ { id := 2, amount := 500, amountUnused := 500
                 , month := "2024-05", source := .salary, remark := none } ] }

/-- Concrete store after settling 300 of debt 1 from income 2. -/
def scenarioStoreAfter : Store :=
  { debts := [ { id := 1, title := "车费", amountOut := 300
               , amountReimbursed := 300, status := .settled } ]
  , incomes := [ { id := 2, amount := 500, amountUnused := 200
                 , month := "2024-05", source := .salary, remark := none } ] }

/-- Evaluation of the settle operation on the concrete scenario. -/
theorem settle_scenario_eval :
    settle scenarioStore 1 2 300 = Except.ok scenarioStoreAfter := by
  rw [settle]
  norm_num [scenarioStore, scenarioStoreAfter, List.find?, applyToDebt,
    applyToIncome, recomputeStatus]

/-- Counterexample to the claimed conservation: the settle of scenario 1
succeeds, yet (sum(amountOut) - sum(amountReimbursed)) + sum(amountUnused)
drops from 800 to 200 - the claimed quantity is not unchanged. -/
theorem settle_conservation_cex :
    settle scenarioStore 1 2 300 = Except.ok scenarioStoreAfter ∧
    conservedTotal scenarioStoreAfter ≠ conservedTotal scenarioStore := by
  refine ⟨settle_scenario_eval, ?_⟩
  norm_num [conservedTotal, totalLent, totalReimbursed, cashWaitingAllocation,
    scenarioStore, scenarioStoreAfter]

/-- Witness for the amended settlement claim on the concrete scenario. -/
theorem settle_moves_balance_witness :
    (∀ d, scenarioStore.debts.find? (fun x => x.id == 1) = some d →
      ∃ d', scenarioStoreAfter.debts.find? (fun x => x.id == 1) = some d' ∧
        d'.amountReimbursed = d.amountReimbursed + 300) ∧
    (∀ i, scenarioStore.incomes.find? (fun x => x.id == 2) = some i →
      ∃ i', scenarioStoreAfter.incomes.find? (fun x => x.id == 2) = some i' ∧
        i'.amountUnused = i.amountUnused - 300) ∧
    totalReimbursed scenarioStoreAfter + cashWaitingAllocation scenarioStoreAfter =
      totalReimbursed scenarioStore + cashWaitingAllocation scenarioStore ∧
    conservedTotal scenarioStoreAfter = conservedTotal scenarioStore - 2 * 300 :=
  settle_moves_balance scenarioStore 1 2 300 scenarioStoreAfter settle_scenario_eval

/-- A JavaScript number that does not compare strictly above 0 is NaN or
compares <= 0. -/
theorem JSNum.not_gtFin_zero (x : JSNum) (hg : x.gtFin 0 = false) :
    x.isNaN = true ∨ x.leFin 0 = true := by
  cases x <;> simp_all [JSNum.gtFin, JSNum.leFin, JSNum.isNaN, not_lt]

/-- C8: handleCreateSalaryLog issues the create request exactly when the
amount is a number strictly greater than 0 and the month is non-empty; any
other input yields a validation error; an issued payload carries the form's
amount and month, and the backend creation initializes amountUnused equal
to amount for it. -/
theorem handleCreateSalaryLog_spec (form : SalaryLogCreate) :
    ((∃ p, handleCreateSalaryLog form = EntryResult.request p) ↔
      (form.amount.gtFin 0 = true ∧ form.month ≠ "")) ∧
    ((form.amount.gtFin 0 = false ∨ form.month = "") →
      ∃ msg, handleCreateSalaryLog form = EntryResult.failure msg) ∧
    (∀ p, handleCreateSalaryLog form = EntryResult.request p →
      p.amount = form.amount ∧ p.month = form.month ∧
      ∀ id q, p.amount = JSNum.fin q →
        (createIncomeEntry id q p.month p.source p.remark).amountUnused =
          (createIncomeEntry id q p.month p.source p.remark).amount) := by
  by_cases hg : form.amount.gtFin 0 = true
  · obtain ⟨h1, h2⟩ := (JSNum.gtFin_zero_iff form.amount).mp hg
    by_cases hm : form.month = ""
    · unfold handleCreateSalaryLog
      simp [h1, h2, hm, hg]
    · unfold handleCreateSalaryLog
      simp [h1, h2, hm, hg, createIncomeEntry]
  · rw [Bool.not_eq_true] at hg
    rcases JSNum.not_gtFin_zero form.amount hg with h1 | h1 <;>
      (unfold handleCreateSalaryLog; simp [h1, hg])

end FinanceManager
